import Mathlib

/-!
Shallow embedding of `src/components/dataset_loader.py`: the `DatasetLoader`
class, its constructor `__init__` and its method `load_dataset`, over an
explicit filesystem model and an oracle standing for the external `datasets`
library.  Path functions model the POSIX behaviour of `os.path` (join,
abspath, normpath, exists) and are implemented structurally over `List Char`
so that every definition evaluates by kernel reduction.
-/

/-- A filesystem snapshot: the existing regular files and the existing
directories, each as a list of path strings (POSIX separators, directory
names stored without a trailing separator). -/
structure FS where
  files : List String
  dirs : List String
deriving DecidableEq

/-- Model of `posixpath.isabs`: the path begins with the separator. -/
def isAbs (p : String) : Bool :=
  match p.data with
  | c :: _ => c == '/'
  | [] => false

/-- Model of `os.path.join` on POSIX (`posixpath.join`) for two arguments:
an absolute second argument replaces the first; otherwise the two parts are
glued, inserting a separator unless the first part is empty or already ends
with one. -/
def osJoin (a b : String) : String :=
  if isAbs b then b
  else if a = "" ∨ a.data.getLast? = some '/' then a ++ b
  else a ++ "/" ++ b

/-- Split a character list at every occurrence of `c`, as Python's
`str.split` with an explicit separator (empty components kept). -/
def splitOnChar (c : Char) (l : List Char) : List (List Char) :=
  l.foldr
    (fun ch acc =>
      match acc with
      | [] => [[ch]]
      | hd :: tl => if ch == c then [] :: hd :: tl else (ch :: hd) :: tl)
    [[]]

/-- Components of a path, as Python's `path.split(sep)`. -/
def splitSep (p : String) : List String :=
  (splitOnChar '/' p.data).map String.mk

/-- Join components with the separator, as Python's `sep.join(comps)`. -/
def joinSep : List String → String
  | [] => ""
  | [c] => c
  | c :: rest => c ++ "/" ++ joinSep rest

/-- One pass of `posixpath.normpath` over the components: `acc` holds the
components kept so far in reverse order; `ab` tells whether the path has a
leading separator (then leading `..` components are dropped). -/
def normComps (ab : Bool) (acc : List String) : List String → List String
  | [] => acc.reverse
  | c :: rest =>
    if c = "" ∨ c = "." then normComps ab acc rest
    else if c = ".." then
      match acc with
      | [] => if ab then normComps ab [] rest else normComps ab [".."] rest
      | top :: tl =>
        if top = ".." then normComps ab (".." :: top :: tl) rest
        else normComps ab tl rest
    else normComps ab (c :: acc) rest

/-- Whether the path starts with two separators. -/
def startsTwoSep (p : String) : Bool :=
  match p.data with
  | c1 :: c2 :: _ => c1 == '/' && c2 == '/'
  | _ => false

/-- Whether the path starts with three separators. -/
def startsThreeSep (p : String) : Bool :=
  match p.data with
  | c1 :: c2 :: c3 :: _ => c1 == '/' && c2 == '/' && c3 == '/'
  | _ => false

/-- Model of `posixpath.normpath`: collapse empty and `.` components,
resolve `..` where possible, keep one leading separator (two when the path
starts with exactly two). -/
def normpath (p : String) : String :=
  if p = "" then "."
  else
    let body := joinSep (normComps (isAbs p) [] (splitSep p))
    let pre : String :=
      if startsTwoSep p && !startsThreeSep p then "//"
      else if isAbs p then "/" else ""
    let out := pre ++ body
    if out = "" then "." else out

/-- Model of `posixpath.abspath`, with the working directory `cwd` passed
explicitly: join a relative path onto `cwd`, then normalize. -/
def osAbspath (cwd p : String) : String :=
  if isAbs p then normpath p else normpath (osJoin cwd p)

/-- Drop a single trailing separator: the path of a directory may be written
with one, and `stat` resolves it to the directory itself. -/
def stripTrailSep (p : String) : String :=
  if p.data.getLast? = some '/' ∧ p ≠ "/" then String.mk p.data.dropLast else p

/-- Model of `os.path.exists`: some entry lives at `p` — a regular file under
exactly this name, or a directory under this name or under the name with the
trailing separator removed. -/
def FS.existsPath (fs : FS) (p : String) : Bool :=
  fs.files.contains p || fs.dirs.contains p || fs.dirs.contains (stripTrailSep p)

/-- Successive prefixes of a path at each separator, given the rebuilt
prefix so far: for components a, b the paths pre ++ a and pre ++ a/b. -/
def chainAux (pre : String) : List String → List String
  | [] => []
  | c :: rest => (pre ++ c) :: chainAux (pre ++ c ++ "/") rest

/-- The chain of directories `os.makedirs` touches for `p`: every ancestor
of `p` at a separator boundary, ending with `p` itself (for a normalized
path). -/
def pathChain (p : String) : List String :=
  chainAux (if isAbs p then "/" else "") ((splitSep p).filter (fun c => c != ""))

/-- Model of `os.makedirs(path, exist_ok=True)`: create the directory and
any missing parents; no error when a directory along the way already exists,
an error when the path or one of its ancestors exists as a regular file. -/
def FS.makedirs (fs : FS) (p : String) : Except String FS :=
  let chain := pathChain p
  if chain.any (fun q => fs.files.contains q) then
    Except.error ("FileExistsError: " ++ p)
  else
    Except.ok { fs with
      dirs := chain.foldl (fun ds q => if ds.contains q then ds else ds ++ [q]) fs.dirs }

/-- The `DatasetLoader` class of the source: its only attribute is
`local_cache_dir`. -/
structure DatasetLoader where
  local_cache_dir : String
deriving DecidableEq

/-- Model of `DatasetLoader.__init__` (lines 12-20 of the source): normalize
the supplied path with `os.path.abspath` and ensure the directory exists with
`os.makedirs(..., exist_ok=True)`; `cwd` is the process working directory and
`fs` the filesystem before the call. -/
def DatasetLoader.init (cwd : String) (fs : FS) (local_cache_dir : String) :
    Except String (DatasetLoader × FS) :=
  let d := osAbspath cwd local_cache_dir
  match fs.makedirs d with
  | Except.error e => Except.error e
  | Except.ok fs2 => Except.ok (⟨d⟩, fs2)

deriving instance DecidableEq for Except

/-- Exceptions the external `datasets.load_dataset` call can raise, split by
the four handlers of the source (`FileNotFoundError`, `ConnectionError`,
`ValueError`, and any other `Exception`); each carries its own message
(`str(e)`). -/
inductive PyError where
  | fileNotFound (msg : String)
  | connectionError (msg : String)
  | valueError (msg : String)
  | otherError (msg : String)
deriving DecidableEq

/-- A call to the external library function `datasets.load_dataset`: either
with a local path and a split (line 45 of the source), or with a hub name, a
split and a cache directory (line 49). -/
inductive LibCall where
  | localLoad (path split : String)
  | hubLoad (name split cacheDir : String)
deriving DecidableEq

/-- Observable events of one `load_dataset` invocation, in order: lines
printed to standard output, and calls made to the external library. -/
inductive Ev where
  | printed (line : String)
  | called (c : LibCall)
deriving DecidableEq

/-- The exception class each re-raised failure carries: the source re-raises
as `FileNotFoundError`, `ConnectionError`, `ValueError` or `RuntimeError`. -/
inductive RaisedKind where
  | fileNotFound
  | connectionError
  | valueError
  | runtimeError
deriving DecidableEq

/-- The exception `load_dataset` re-raises on failure: its class, its
message, and the original exception attached with `raise ... from`. -/
structure Raised where
  kind : RaisedKind
  msg : String
  cause : PyError
deriving DecidableEq

/-- The class each caught error is re-raised as, one handler per kind
(lines 51-71 of the source). -/
def classify : PyError → RaisedKind
  | PyError.fileNotFound _ => RaisedKind.fileNotFound
  | PyError.connectionError _ => RaisedKind.connectionError
  | PyError.valueError _ => RaisedKind.valueError
  | PyError.otherError _ => RaisedKind.runtimeError

/-- The message of the re-raised exception, per handler. -/
def raisedMsg (dataset_name split : String) : PyError → String
  | PyError.fileNotFound _ =>
      "Dataset '" ++ dataset_name ++ "' not available locally or on Hugging Face Hub."
  | PyError.connectionError _ =>
      "Failed to download dataset '" ++ dataset_name ++ "' due to connectivity issues."
  | PyError.valueError _ =>
      "Dataset '" ++ dataset_name ++ "' or split '" ++ split ++ "' is invalid."
  | PyError.otherError _ =>
      "An unexpected error occurred while loading dataset '" ++ dataset_name ++ "'."

/-- The diagnostic line each handler prints before re-raising. -/
def errorLine (dataset_name : String) : PyError → String
  | PyError.fileNotFound _ =>
      "Error: Dataset '" ++ dataset_name ++ "' not found locally or remotely."
  | PyError.connectionError _ =>
      "Error: Unable to connect to Hugging Face Hub to download '" ++ dataset_name ++ "'."
  | PyError.valueError _ =>
      "Error: Invalid dataset name or split for '" ++ dataset_name ++ "'."
  | PyError.otherError m =>
      "Unexpected error while loading dataset '" ++ dataset_name ++ "': " ++ m

/-- The outcome of one `load_dataset` invocation: the returned dataset or
the raised exception, the ordered trace of observable events, and the
filesystem and the loader object afterward.  The method body performs no
filesystem mutation (the existence check is read-only) and assigns no
attribute, so both come back unchanged; whatever the external library itself
writes under the cache directory is the collaborator's own effect and is
outside the loader's code. -/
structure LoadOutcome (α : Type) where
  result : Except Raised α
  trace : List Ev
  fsAfter : FS
  selfAfter : DatasetLoader
deriving DecidableEq

/-- Model of `DatasetLoader.load_dataset` (lines 22-71 of the source): print
the attempt line, build the candidate path with `os.path.join`, branch on
`os.path.exists`, call the external library `lib` on the chosen branch, and
translate any caught exception through the four handlers. -/
def DatasetLoader.load_dataset {α : Type} (lib : LibCall → Except PyError α)
    (fs : FS) (self : DatasetLoader) (dataset_name : String)
    (split : String) : LoadOutcome α :=
  let preLine :=
    Ev.printed ("Attempting to load dataset: " ++ dataset_name ++ ", split: " ++ split)
  let dataset_path := osJoin self.local_cache_dir dataset_name
  if fs.existsPath dataset_path then
    let branchLine := Ev.printed ("Loading dataset locally from: " ++ dataset_path)
    let call := LibCall.localLoad dataset_path split
    match lib call with
    | Except.ok d =>
        ⟨Except.ok d, [preLine, branchLine, Ev.called call], fs, self⟩
    | Except.error e =>
        ⟨Except.error ⟨classify e, raisedMsg dataset_name split e, e⟩,
          [preLine, branchLine, Ev.called call, Ev.printed (errorLine dataset_name e)],
          fs, self⟩
  else
    let branchLine :=
      Ev.printed ("Dataset not found locally. Attempting to download " ++ dataset_name
        ++ " from Hugging Face Hub...")
    let call := LibCall.hubLoad dataset_name split self.local_cache_dir
    match lib call with
    | Except.ok d =>
        ⟨Except.ok d, [preLine, branchLine, Ev.called call], fs, self⟩
    | Except.error e =>
        ⟨Except.error ⟨classify e, raisedMsg dataset_name split e, e⟩,
          [preLine, branchLine, Ev.called call, Ev.printed (errorLine dataset_name e)],
          fs, self⟩

/-- The one library call an invocation makes, determined by the existence
check (the branch at lines 42-49 of the source). -/
def DatasetLoader.plannedCall (fs : FS) (self : DatasetLoader)
    (dataset_name split : String) : LibCall :=
  if fs.existsPath (osJoin self.local_cache_dir dataset_name) then
    LibCall.localLoad (osJoin self.local_cache_dir dataset_name) split
  else
    LibCall.hubLoad dataset_name split self.local_cache_dir

/-- Whether an event is a library call on the local branch. -/
def isLocalCall : Ev → Bool
  | Ev.called (LibCall.localLoad _ _) => true
  | _ => false

/-- Whether an event is a library call on the remote branch. -/
def isHubCall : Ev → Bool
  | Ev.called (LibCall.hubLoad _ _ _) => true
  | _ => false

/-- Whether an event is a library call. -/
def isCall : Ev → Bool
  | Ev.called _ => true
  | _ => false

/-- Whether an event is a printed line. -/
def isPrint : Ev → Bool
  | Ev.printed _ => true
  | _ => false

/-- Every library call in the trace has some printed line strictly before
it; `seen` records whether a line was already printed. -/
def printBeforeEachCall (seen : Bool) : List Ev → Bool
  | [] => true
  | Ev.printed _ :: rest => printBeforeEachCall true rest
  | Ev.called _ :: rest => seen && printBeforeEachCall seen rest

/-- Every library call in the trace has some printed line strictly after
it. -/
def printAfterEachCall : List Ev → Bool
  | [] => true
  | Ev.printed _ :: rest => printAfterEachCall rest
  | Ev.called _ :: rest => rest.any isPrint && printAfterEachCall rest

/-- One string occurs contiguously inside another. -/
def strContains (hay nee : String) : Prop :=
  nee.data <:+: hay.data

instance (hay nee : String) : Decidable (strContains hay nee) :=
  List.decidableInfix nee.data hay.data

/-- Run a sequence of `load_dataset` invocations, threading the loader
object and the filesystem from each call into the next. -/
def runLoads {α : Type} (lib : LibCall → Except PyError α) :
    DatasetLoader → FS → List (String × String) → DatasetLoader × FS
  | self, fs, [] => (self, fs)
  | self, fs, (n, s) :: rest =>
      let o := DatasetLoader.load_dataset lib fs self n s
      runLoads lib o.selfAfter o.fsAfter rest

/-- A string is an infix of the concatenation that has it as the middle
part. -/
theorem strContains_of_parts (hay nee : String) (pre post : List Char)
    (h : pre ++ nee.data ++ post = hay.data) : strContains hay nee :=
  ⟨pre, post, h⟩

/-- The method body returns the filesystem and the loader object
unchanged. -/
theorem load_dataset_frame {α : Type} (lib : LibCall → Except PyError α)
    (fs : FS) (self : DatasetLoader) (n s : String) :
    (DatasetLoader.load_dataset lib fs self n s).fsAfter = fs ∧
      (DatasetLoader.load_dataset lib fs self n s).selfAfter = self := by
  unfold DatasetLoader.load_dataset
  by_cases hc : fs.existsPath (osJoin self.local_cache_dir n) = true
  · simp only [hc, if_true]
    cases lib (LibCall.localLoad (osJoin self.local_cache_dir n) s) <;> exact ⟨rfl, rfl⟩
  · simp only [Bool.not_eq_true] at hc
    simp only [hc, Bool.false_eq_true, if_false]
    cases lib (LibCall.hubLoad n s self.local_cache_dir) <;> exact ⟨rfl, rfl⟩

/-- C1: whenever the path obtained by joining the cache directory with the
dataset name exists on the filesystem, `load_dataset` calls the external
library with that local path and the given split, and never makes a call to
the remote hub. -/
theorem c1_local_branch_only {α : Type} (lib : LibCall → Except PyError α)
    (fs : FS) (self : DatasetLoader) (dataset_name split : String)
    (h : fs.existsPath (osJoin self.local_cache_dir dataset_name) = true) :
    Ev.called (LibCall.localLoad (osJoin self.local_cache_dir dataset_name) split)
        ∈ (DatasetLoader.load_dataset lib fs self dataset_name split).trace ∧
      (DatasetLoader.load_dataset lib fs self dataset_name split).trace.any isHubCall
        = false := by
  unfold DatasetLoader.load_dataset
  simp only [h, if_true]
  cases lib (LibCall.localLoad (osJoin self.local_cache_dir dataset_name) split) <;>
    simp [isHubCall]

/-- Witness for C1: a loader with cache directory under which the dataset
subdirectory exists takes the local branch. -/
theorem c1_witness :
    FS.existsPath ⟨[], ["/cache", "/cache/squad"]⟩ (osJoin "/cache" "squad") = true ∧
      (Ev.called (LibCall.localLoad (osJoin "/cache" "squad") "test")
          ∈ (DatasetLoader.load_dataset (fun _ => Except.ok (0 : Nat))
              ⟨[], ["/cache", "/cache/squad"]⟩ ⟨"/cache"⟩ "squad" "test").trace ∧
        (DatasetLoader.load_dataset (fun _ => Except.ok (0 : Nat))
            ⟨[], ["/cache", "/cache/squad"]⟩ ⟨"/cache"⟩ "squad" "test").trace.any isHubCall
          = false) :=
  ⟨by decide,
    c1_local_branch_only (fun _ => Except.ok (0 : Nat)) ⟨[], ["/cache", "/cache/squad"]⟩
      ⟨"/cache"⟩ "squad" "test" (by decide)⟩

/-- C2: whenever the joined local path does not exist, `load_dataset` calls
the external library with the dataset name, the given split and the cache
directory as download target, and never makes a local-path call. -/
theorem c2_remote_branch_only {α : Type} (lib : LibCall → Except PyError α)
    (fs : FS) (self : DatasetLoader) (dataset_name split : String)
    (h : fs.existsPath (osJoin self.local_cache_dir dataset_name) = false) :
    Ev.called (LibCall.hubLoad dataset_name split self.local_cache_dir)
        ∈ (DatasetLoader.load_dataset lib fs self dataset_name split).trace ∧
      (DatasetLoader.load_dataset lib fs self dataset_name split).trace.any isLocalCall
        = false := by
  unfold DatasetLoader.load_dataset
  simp only [h, Bool.false_eq_true, if_false]
  cases lib (LibCall.hubLoad dataset_name split self.local_cache_dir) <;>
    simp [isLocalCall]

/-- Witness for C2: with an empty filesystem the remote branch is taken. -/
theorem c2_witness :
    FS.existsPath ⟨[], ["/cache"]⟩ (osJoin "/cache" "squad") = false ∧
      (Ev.called (LibCall.hubLoad "squad" "train" "/cache")
          ∈ (DatasetLoader.load_dataset (fun _ => Except.ok (0 : Nat))
              ⟨[], ["/cache"]⟩ ⟨"/cache"⟩ "squad" "train").trace ∧
        (DatasetLoader.load_dataset (fun _ => Except.ok (0 : Nat))
            ⟨[], ["/cache"]⟩ ⟨"/cache"⟩ "squad" "train").trace.any isLocalCall
          = false) :=
  ⟨by decide,
    c2_remote_branch_only (fun _ => Except.ok (0 : Nat)) ⟨[], ["/cache"]⟩
      ⟨"/cache"⟩ "squad" "train" (by decide)⟩

/-- C3: every failure of the underlying load is re-raised as exactly the
kind its handler assigns (not-found, connectivity, invalid-argument or the
generic unexpected kind), with the original exception preserved as the
cause and a descriptive message added; the invocation makes exactly one
library call (nothing is handled or retried locally) and the failure
propagates to the caller. -/
theorem c3_error_translation {α : Type} (lib : LibCall → Except PyError α)
    (fs : FS) (self : DatasetLoader) (dataset_name split : String) (e : PyError)
    (h : lib (DatasetLoader.plannedCall fs self dataset_name split) = Except.error e) :
    (DatasetLoader.load_dataset lib fs self dataset_name split).result
        = Except.error ⟨classify e, raisedMsg dataset_name split e, e⟩ ∧
      (DatasetLoader.load_dataset lib fs self dataset_name split).trace.filter isCall
        = [Ev.called (DatasetLoader.plannedCall fs self dataset_name split)] ∧
      ∀ d : α, (DatasetLoader.load_dataset lib fs self dataset_name split).result
        ≠ Except.ok d := by
  unfold DatasetLoader.plannedCall at h
  unfold DatasetLoader.load_dataset DatasetLoader.plannedCall
  by_cases hc : fs.existsPath (osJoin self.local_cache_dir dataset_name) = true
  · simp only [hc, if_true] at h ⊢
    rw [h]
    simp [isCall]
  · simp only [Bool.not_eq_true] at hc
    simp only [hc, Bool.false_eq_true, if_false] at h ⊢
    rw [h]
    simp [isCall]

/-- Witness for C3: a connectivity failure of the remote call is re-raised
as the connectivity kind with the original error as cause. -/
theorem c3_witness :
    (fun _ => Except.error (PyError.connectionError "down") : LibCall → Except PyError Nat)
        (DatasetLoader.plannedCall ⟨[], ["/cache"]⟩ ⟨"/cache"⟩ "squad" "test")
        = Except.error (PyError.connectionError "down") ∧
      ((DatasetLoader.load_dataset
            (fun _ => Except.error (PyError.connectionError "down") : LibCall → Except PyError Nat)
            ⟨[], ["/cache"]⟩ ⟨"/cache"⟩ "squad" "test").result
          = Except.error ⟨classify (PyError.connectionError "down"),
              raisedMsg "squad" "test" (PyError.connectionError "down"),
              PyError.connectionError "down"⟩ ∧
        (DatasetLoader.load_dataset
            (fun _ => Except.error (PyError.connectionError "down") : LibCall → Except PyError Nat)
            ⟨[], ["/cache"]⟩ ⟨"/cache"⟩ "squad" "test").trace.filter isCall
          = [Ev.called (DatasetLoader.plannedCall ⟨[], ["/cache"]⟩ ⟨"/cache"⟩ "squad" "test")] ∧
        ∀ d : Nat, (DatasetLoader.load_dataset
            (fun _ => Except.error (PyError.connectionError "down") : LibCall → Except PyError Nat)
            ⟨[], ["/cache"]⟩ ⟨"/cache"⟩ "squad" "test").result ≠ Except.ok d) :=
  ⟨by decide,
    c3_error_translation
      (fun _ => Except.error (PyError.connectionError "down") : LibCall → Except PyError Nat)
      ⟨[], ["/cache"]⟩ ⟨"/cache"⟩ "squad" "test" (PyError.connectionError "down") (by decide)⟩

/-- C4: whenever `load_dataset` raises, the raised exception's message
contains the dataset name, and for the invalid-argument kind it contains
both the dataset name and the split. -/
theorem c4_raised_message_contents {α : Type} (lib : LibCall → Except PyError α)
    (fs : FS) (self : DatasetLoader) (dataset_name split : String) (r : Raised)
    (h : (DatasetLoader.load_dataset lib fs self dataset_name split).result
      = Except.error r) :
    strContains r.msg dataset_name ∧
      (r.kind = RaisedKind.valueError →
        strContains r.msg dataset_name ∧ strContains r.msg split) := by
  have hr : ∃ e : PyError, r = ⟨classify e, raisedMsg dataset_name split e, e⟩ := by
    unfold DatasetLoader.load_dataset at h
    by_cases hc : fs.existsPath (osJoin self.local_cache_dir dataset_name) = true
    · simp only [hc, if_true] at h
      cases hl : lib (LibCall.localLoad (osJoin self.local_cache_dir dataset_name) split) with
      | ok d => rw [hl] at h; simp at h
      | error e => rw [hl] at h; simp at h; exact ⟨e, h.symm⟩
    · simp only [Bool.not_eq_true] at hc
      simp only [hc, Bool.false_eq_true, if_false] at h
      cases hl : lib (LibCall.hubLoad dataset_name split self.local_cache_dir) with
      | ok d => rw [hl] at h; simp at h
      | error e => rw [hl] at h; simp at h; exact ⟨e, h.symm⟩
  obtain ⟨e, rfl⟩ := hr
  cases e with
  | fileNotFound m =>
      refine ⟨strContains_of_parts _ _ "Dataset '".data
        "' not available locally or on Hugging Face Hub.".data
        (by simp [raisedMsg, String.data_append]), ?_⟩
      intro hk; simp [classify] at hk
  | connectionError m =>
      refine ⟨strContains_of_parts _ _ "Failed to download dataset '".data
        "' due to connectivity issues.".data (by simp [raisedMsg, String.data_append]), ?_⟩
      intro hk; simp [classify] at hk
  | valueError m =>
      refine ⟨?_, fun _ => ⟨?_, ?_⟩⟩
      · exact strContains_of_parts _ _ "Dataset '".data
          ("' or split '" ++ split ++ "' is invalid.").data (by simp [raisedMsg, String.data_append])
      · exact strContains_of_parts _ _ "Dataset '".data
          ("' or split '" ++ split ++ "' is invalid.").data (by simp [raisedMsg, String.data_append])
      · exact strContains_of_parts _ _ ("Dataset '" ++ dataset_name ++ "' or split '").data
          "' is invalid.".data (by simp [raisedMsg, String.data_append])
  | otherError m =>
      refine ⟨strContains_of_parts _ _ "An unexpected error occurred while loading dataset '".data
        "'.".data (by simp [raisedMsg, String.data_append]), ?_⟩
      intro hk; simp [classify] at hk

/-- Witness for C4: an invalid-argument failure carries both the dataset
name and the split in its message. -/
theorem c4_witness :
    (DatasetLoader.load_dataset
        (fun _ => Except.error (PyError.valueError "x") : LibCall → Except PyError Nat)
        ⟨[], ["/cache"]⟩ ⟨"/cache"⟩ "squad" "bad").result
      = Except.error ⟨RaisedKind.valueError,
          "Dataset 'squad' or split 'bad' is invalid.", PyError.valueError "x"⟩ ∧
    (strContains (Raised.mk RaisedKind.valueError
          "Dataset 'squad' or split 'bad' is invalid." (PyError.valueError "x")).msg "squad" ∧
      ((Raised.mk RaisedKind.valueError
            "Dataset 'squad' or split 'bad' is invalid." (PyError.valueError "x")).kind
          = RaisedKind.valueError →
        strContains (Raised.mk RaisedKind.valueError
            "Dataset 'squad' or split 'bad' is invalid." (PyError.valueError "x")).msg "squad" ∧
        strContains (Raised.mk RaisedKind.valueError
            "Dataset 'squad' or split 'bad' is invalid." (PyError.valueError "x")).msg "bad")) :=
  ⟨by decide,
    c4_raised_message_contents
      (fun _ => Except.error (PyError.valueError "x") : LibCall → Except PyError Nat)
      ⟨[], ["/cache"]⟩ ⟨"/cache"⟩ "squad" "bad"
      ⟨RaisedKind.valueError, "Dataset 'squad' or split 'bad' is invalid.", PyError.valueError "x"⟩
      (by decide)⟩

/-- C6: on success `load_dataset` returns exactly the value the external
library produced, unchanged; and for every invocation the result is either
a returned dataset object or a raised failure — there is no partial-success
mode. -/
theorem c6_result_passthrough {α : Type} (lib : LibCall → Except PyError α)
    (fs : FS) (self : DatasetLoader) (dataset_name split : String) (d : α)
    (h : lib (DatasetLoader.plannedCall fs self dataset_name split) = Except.ok d) :
    (DatasetLoader.load_dataset lib fs self dataset_name split).result = Except.ok d ∧
      ((∃ v : α, (DatasetLoader.load_dataset lib fs self dataset_name split).result
          = Except.ok v) ∨
        (∃ r : Raised, (DatasetLoader.load_dataset lib fs self dataset_name split).result
          = Except.error r)) := by
  have hok : (DatasetLoader.load_dataset lib fs self dataset_name split).result
      = Except.ok d := by
    unfold DatasetLoader.plannedCall at h
    unfold DatasetLoader.load_dataset
    by_cases hc : fs.existsPath (osJoin self.local_cache_dir dataset_name) = true
    · simp only [hc, if_true] at h ⊢
      rw [h]
    · simp only [Bool.not_eq_true] at hc
      simp only [hc, Bool.false_eq_true, if_false] at h ⊢
      rw [h]
  exact ⟨hok, Or.inl ⟨d, hok⟩⟩

/-- Witness for C6: a successful remote load returns the library's value. -/
theorem c6_witness :
    (fun _ => Except.ok (7 : Nat) : LibCall → Except PyError Nat)
        (DatasetLoader.plannedCall ⟨[], ["/cache"]⟩ ⟨"/cache"⟩ "squad" "test")
      = Except.ok 7 ∧
      ((DatasetLoader.load_dataset (fun _ => Except.ok (7 : Nat))
          ⟨[], ["/cache"]⟩ ⟨"/cache"⟩ "squad" "test").result = Except.ok 7 ∧
        ((∃ v : Nat, (DatasetLoader.load_dataset (fun _ => Except.ok (7 : Nat))
            ⟨[], ["/cache"]⟩ ⟨"/cache"⟩ "squad" "test").result = Except.ok v) ∨
          (∃ r : Raised, (DatasetLoader.load_dataset (fun _ => Except.ok (7 : Nat))
            ⟨[], ["/cache"]⟩ ⟨"/cache"⟩ "squad" "test").result = Except.error r))) :=
  ⟨by decide,
    c6_result_passthrough (fun _ => Except.ok (7 : Nat)) ⟨[], ["/cache"]⟩ ⟨"/cache"⟩
      "squad" "test" 7 (by decide)⟩

/-- C7: `load_dataset` performs no directory creation and no attribute
mutation — the filesystem and the loader object come back unchanged from a
single call, and over every sequence of calls the loader keeps its cache
directory path and the filesystem is untouched by the loader's own code. -/
theorem c7_no_mutation {α : Type} (lib : LibCall → Except PyError α)
    (fs : FS) (self : DatasetLoader) (dataset_name split : String)
    (calls : List (String × String)) :
    (DatasetLoader.load_dataset lib fs self dataset_name split).fsAfter = fs ∧
      (DatasetLoader.load_dataset lib fs self dataset_name split).selfAfter = self ∧
      runLoads lib self fs calls = (self, fs) := by
  refine ⟨(load_dataset_frame lib fs self dataset_name split).1,
    (load_dataset_frame lib fs self dataset_name split).2, ?_⟩
  induction calls generalizing self fs with
  | nil => rfl
  | cons c rest ih =>
      obtain ⟨n, s⟩ := c
      simp only [runLoads]
      rw [(load_dataset_frame lib fs self n s).1, (load_dataset_frame lib fs self n s).2]
      exact ih fs self

/-- C10: any existing filesystem entry at the joined path — a regular file
just as well as a directory, and no matter what it contains — sends
`load_dataset` down the local branch and suppresses the remote fallback, for
every behaviour of the external library. -/
theorem c10_bare_existence_decides {α : Type} (lib : LibCall → Except PyError α)
    (fs : FS) (self : DatasetLoader) (dataset_name split : String)
    (h : fs.files.contains (osJoin self.local_cache_dir dataset_name) = true ∨
      fs.dirs.contains (osJoin self.local_cache_dir dataset_name) = true) :
    (DatasetLoader.load_dataset lib fs self dataset_name split).trace.any isLocalCall
        = true ∧
      (DatasetLoader.load_dataset lib fs self dataset_name split).trace.any isHubCall
        = false := by
  have hc : fs.existsPath (osJoin self.local_cache_dir dataset_name) = true := by
    unfold FS.existsPath
    rcases h with h | h <;> simp at h ⊢ <;> tauto
  unfold DatasetLoader.load_dataset
  simp only [hc, if_true]
  cases lib (LibCall.localLoad (osJoin self.local_cache_dir dataset_name) split) <;>
    simp [isLocalCall, isHubCall]

/-- Witness for C10: a regular file at the joined path (not a directory, not
a valid dataset) already forces the local branch, with a library that fails
on the local call and would succeed on the remote one. -/
theorem c10_witness :
    ((FS.mk ["/cache/stray"] ["/cache"]).files.contains (osJoin "/cache" "stray") = true ∨
      (FS.mk ["/cache/stray"] ["/cache"]).dirs.contains (osJoin "/cache" "stray") = true) ∧
      ((DatasetLoader.load_dataset
          (fun c => match c with
            | LibCall.localLoad _ _ => Except.error (PyError.fileNotFound "no dataset here")
            | LibCall.hubLoad _ _ _ => Except.ok (1 : Nat))
          ⟨["/cache/stray"], ["/cache"]⟩ ⟨"/cache"⟩ "stray" "test").trace.any isLocalCall
        = true ∧
        (DatasetLoader.load_dataset
          (fun c => match c with
            | LibCall.localLoad _ _ => Except.error (PyError.fileNotFound "no dataset here")
            | LibCall.hubLoad _ _ _ => Except.ok (1 : Nat))
          ⟨["/cache/stray"], ["/cache"]⟩ ⟨"/cache"⟩ "stray" "test").trace.any isHubCall
        = false) :=
  ⟨Or.inl (by decide),
    c10_bare_existence_decides
      (fun c => match c with
        | LibCall.localLoad _ _ => Except.error (PyError.fileNotFound "no dataset here")
        | LibCall.hubLoad _ _ _ => Except.ok (1 : Nat))
      ⟨["/cache/stray"], ["/cache"]⟩ ⟨"/cache"⟩ "stray" "test" (Or.inl (by decide))⟩

/-- Counterexample for C8: on a successful invocation nothing is printed
after the load attempt — both diagnostics precede the library call — so the
claim that messages are printed before and after each attempt fails. -/
theorem c8_counterexample :
    printAfterEachCall (DatasetLoader.load_dataset (fun _ => Except.ok (0 : Nat))
      ⟨[], ["/cache"]⟩ ⟨"/cache"⟩ "squad" "test").trace = false := by decide

/-- C8 (amended): for every invocation of `load_dataset`, diagnostic
messages are printed before each load attempt, and whenever the invocation
fails a diagnostic message is also printed after the attempt — so a
diagnostic print precedes both the attempt and any failure. -/
theorem c8_print_order {α : Type} (lib : LibCall → Except PyError α)
    (fs : FS) (self : DatasetLoader) (dataset_name split : String) :
    printBeforeEachCall false
        (DatasetLoader.load_dataset lib fs self dataset_name split).trace = true ∧
      (∀ r : Raised,
        (DatasetLoader.load_dataset lib fs self dataset_name split).result
            = Except.error r →
          printAfterEachCall
            (DatasetLoader.load_dataset lib fs self dataset_name split).trace = true) := by
  unfold DatasetLoader.load_dataset
  by_cases hc : fs.existsPath (osJoin self.local_cache_dir dataset_name) = true
  · simp only [hc, if_true]
    cases lib (LibCall.localLoad (osJoin self.local_cache_dir dataset_name) split) with
    | ok d =>
        exact ⟨by simp [printBeforeEachCall], fun r hr => by simp at hr⟩
    | error e =>
        exact ⟨by simp [printBeforeEachCall],
          fun r hr => by simp [printAfterEachCall, isPrint]⟩
  · simp only [Bool.not_eq_true] at hc
    simp only [hc, Bool.false_eq_true, if_false]
    cases lib (LibCall.hubLoad dataset_name split self.local_cache_dir) with
    | ok d =>
        exact ⟨by simp [printBeforeEachCall], fun r hr => by simp at hr⟩
    | error e =>
        exact ⟨by simp [printBeforeEachCall],
          fun r hr => by simp [printAfterEachCall, isPrint]⟩

/-- Witness for C8: a failing remote load prints before the attempt and
again after it. -/
theorem c8_witness :
    printBeforeEachCall false
        (DatasetLoader.load_dataset
          (fun _ => Except.error (PyError.fileNotFound "gone") : LibCall → Except PyError Nat)
          ⟨[], ["/cache"]⟩ ⟨"/cache"⟩ "squad" "test").trace = true ∧
      (DatasetLoader.load_dataset
          (fun _ => Except.error (PyError.fileNotFound "gone") : LibCall → Except PyError Nat)
          ⟨[], ["/cache"]⟩ ⟨"/cache"⟩ "squad" "test").result
        = Except.error ⟨RaisedKind.fileNotFound,
            "Dataset 'squad' not available locally or on Hugging Face Hub.",
            PyError.fileNotFound "gone"⟩ ∧
      printAfterEachCall
        (DatasetLoader.load_dataset
          (fun _ => Except.error (PyError.fileNotFound "gone") : LibCall → Except PyError Nat)
          ⟨[], ["/cache"]⟩ ⟨"/cache"⟩ "squad" "test").trace = true :=
  ⟨(c8_print_order (fun _ => Except.error (PyError.fileNotFound "gone"))
      ⟨[], ["/cache"]⟩ ⟨"/cache"⟩ "squad" "test").1,
    by decide,
    (c8_print_order (fun _ => Except.error (PyError.fileNotFound "gone"))
        ⟨[], ["/cache"]⟩ ⟨"/cache"⟩ "squad" "test").2
      ⟨RaisedKind.fileNotFound,
        "Dataset 'squad' not available locally or on Hugging Face Hub.",
        PyError.fileNotFound "gone"⟩ (by decide)⟩

/-- Counterexample for C9: for the empty dataset name the joined candidate
path is the cache directory followed by a trailing separator, not the cache
directory itself. -/
theorem c9_counterexample : osJoin "/cache" "" ≠ "/cache" := by decide

/-- C9 (amended): for the empty dataset name the joined candidate path is
the cache directory followed by the path separator; that path exists on the
filesystem whenever the cache directory exists as a directory (as it does
after construction), so `load_dataset` with an empty dataset name always
takes the local branch and never the remote branch. -/
theorem c9_empty_name_local {α : Type} (lib : LibCall → Except PyError α)
    (fs : FS) (self : DatasetLoader) (split : String)
    (hdir : fs.dirs.contains self.local_cache_dir = true)
    (hne : self.local_cache_dir ≠ "")
    (hns : self.local_cache_dir.data.getLast? ≠ some '/') :
    osJoin self.local_cache_dir "" = self.local_cache_dir ++ "/" ∧
      (DatasetLoader.load_dataset lib fs self "" split).trace.any isLocalCall = true ∧
      (DatasetLoader.load_dataset lib fs self "" split).trace.any isHubCall = false := by
  have hcond : ¬ (self.local_cache_dir = ""
      ∨ self.local_cache_dir.data.getLast? = some '/') := by
    rintro (h | h)
    · exact hne h
    · exact hns h
  have hjoin : osJoin self.local_cache_dir "" = self.local_cache_dir ++ "/" := by
    unfold osJoin
    rw [if_neg (by decide), if_neg hcond]
    apply String.ext
    simp [String.data_append]
  have hdata : (self.local_cache_dir ++ "/").data
      = self.local_cache_dir.data ++ ['/'] := by
    simp [String.data_append]
  have hstrip : stripTrailSep (self.local_cache_dir ++ "/") = self.local_cache_dir := by
    unfold stripTrailSep
    rw [if_pos]
    · rw [hdata, List.dropLast_concat]
    · refine ⟨by rw [hdata, List.getLast?_concat], ?_⟩
      intro habs
      apply hne
      apply String.ext
      have h2 := congrArg String.data habs
      rw [hdata] at h2
      simpa using h2
  have hc : fs.existsPath (self.local_cache_dir ++ "/") = true := by
    unfold FS.existsPath
    rw [hstrip]
    simp only [hdir, Bool.or_true]
  refine ⟨hjoin, ?_⟩
  unfold DatasetLoader.load_dataset
  rw [hjoin]
  simp only [hc, if_true]
  cases lib (LibCall.localLoad (self.local_cache_dir ++ "/") split) <;>
    simp [isLocalCall, isHubCall]

/-- Witness for C9 (amended): a concrete loader whose cache directory exists
takes the local branch for the empty dataset name. -/
theorem c9_witness :
    ((FS.mk [] ["/cache"]).dirs.contains "/cache" = true ∧ "/cache" ≠ ""
        ∧ "/cache".data.getLast? ≠ some '/') ∧
      (osJoin "/cache" "" = "/cache" ++ "/" ∧
        (DatasetLoader.load_dataset (fun _ => Except.ok (0 : Nat))
          ⟨[], ["/cache"]⟩ ⟨"/cache"⟩ "" "test").trace.any isLocalCall = true ∧
        (DatasetLoader.load_dataset (fun _ => Except.ok (0 : Nat))
          ⟨[], ["/cache"]⟩ ⟨"/cache"⟩ "" "test").trace.any isHubCall = false) :=
  ⟨⟨by decide, by decide, by decide⟩,
    c9_empty_name_local (fun _ => Except.ok (0 : Nat)) ⟨[], ["/cache"]⟩ ⟨"/cache"⟩
      "test" (by decide) (by decide) (by decide)⟩

/-- Appending to a nonempty string keeps it nonempty. -/
theorem append_ne_empty_left (a b : String) (h : a ≠ "") : a ++ b ≠ "" := by
  intro he
  apply h
  have h2 := congrArg String.data he
  rw [String.data_append] at h2
  apply String.ext
  simpa using (List.append_eq_nil.mp h2).1

/-- A path starting with the separator still does after appending. -/
theorem isAbs_append (a b : String) (h : isAbs a = true) : isAbs (a ++ b) = true := by
  rcases a with ⟨da⟩
  cases da with
  | nil => simp [isAbs] at h
  | cons c t =>
      simp [isAbs] at h
      simp [isAbs, String.data_append, h]

/-- Normalizing an absolute path yields an absolute path. -/
theorem normpath_isAbs (p : String) (h : isAbs p = true) :
    isAbs (normpath p) = true := by
  have hne : p ≠ "" := by
    intro he
    rw [he] at h
    simp [isAbs] at h
  unfold normpath
  rw [if_neg hne]
  simp only
  by_cases h2 : (startsTwoSep p && !startsThreeSep p) = true
  · rw [if_pos h2, if_neg (append_ne_empty_left "//" _ (by decide))]
    exact isAbs_append "//" _ (by decide)
  · rw [if_neg h2, if_pos h, if_neg (append_ne_empty_left "/" _ (by decide))]
    exact isAbs_append "/" _ (by decide)

/-- Model of `os.path.abspath` yields an absolute path when the working
directory is absolute. -/
theorem osAbspath_isAbs (cwd p : String) (h : isAbs cwd = true) :
    isAbs (osAbspath cwd p) = true := by
  unfold osAbspath
  by_cases hp : isAbs p = true
  · rw [if_pos hp]
    exact normpath_isAbs p hp
  · rw [if_neg hp]
    apply normpath_isAbs
    unfold osJoin
    rw [if_neg hp]
    by_cases hcond : (cwd = "" ∨ cwd.data.getLast? = some '/')
    · rw [if_pos hcond]
      exact isAbs_append cwd p h
    · rw [if_neg hcond]
      exact isAbs_append (cwd ++ "/") p (isAbs_append cwd "/" h)

/-- The insertion fold of `makedirs` keeps every name already present. -/
theorem contains_foldl_insert_of_contains (l ds : List String) (q : String)
    (h : ds.contains q = true) :
    (l.foldl (fun ds2 q2 => if ds2.contains q2 then ds2 else ds2 ++ [q2]) ds).contains q
      = true := by
  induction l generalizing ds with
  | nil => exact h
  | cons c rest ih =>
      simp only [List.foldl]
      by_cases hcq : ds.contains c = true
      · rw [if_pos hcq]
        exact ih ds h
      · rw [if_neg hcq]
        apply ih
        simp at h ⊢
        exact Or.inl h

/-- The insertion fold of `makedirs` makes every inserted name present. -/
theorem contains_foldl_insert_of_mem (l ds : List String) (q : String) (h : q ∈ l) :
    (l.foldl (fun ds2 q2 => if ds2.contains q2 then ds2 else ds2 ++ [q2]) ds).contains q
      = true := by
  induction l generalizing ds with
  | nil => cases h
  | cons c rest ih =>
      simp only [List.foldl]
      rcases List.mem_cons.mp h with rfl | hmem
      · by_cases hcq : ds.contains q = true
        · rw [if_pos hcq]
          exact contains_foldl_insert_of_contains rest ds q hcq
        · rw [if_neg hcq]
          apply contains_foldl_insert_of_contains
          simp
      · by_cases hcq : ds.contains c = true
        · rw [if_pos hcq]
          exact ih ds hmem
        · rw [if_neg hcq]
          exact ih _ hmem

/-- The insertion fold of `makedirs` changes nothing when every name is
already present. -/
theorem foldl_insert_eq_of_all (l ds : List String)
    (h : ∀ q ∈ l, ds.contains q = true) :
    l.foldl (fun ds2 q2 => if ds2.contains q2 then ds2 else ds2 ++ [q2]) ds = ds := by
  induction l with
  | nil => rfl
  | cons c rest ih =>
      simp only [List.foldl]
      rw [if_pos (h c (List.mem_cons_self c rest))]
      exact ih (fun q hq => h q (List.mem_cons_of_mem c hq))

/-- C5: construction normalizes the supplied path to an absolute path and
ensures the directory exists afterward, creating it and any missing parents,
with no error when it already exists: when the working directory is
absolute, no component of the target is an existing regular file and the
normalized path is rebuilt by its own prefix chain, `__init__` succeeds, the
stored cache directory is absolute and exists afterward, and constructing
again with the same path succeeds with the same result. -/
theorem c5_init_creates_cache_dir (cwd p : String) (fs : FS)
    (habs : isAbs cwd = true)
    (hfile : ∀ q ∈ pathChain (osAbspath cwd p), fs.files.contains q = false)
    (hmem : osAbspath cwd p ∈ pathChain (osAbspath cwd p)) :
    ∃ fs2 : FS,
      DatasetLoader.init cwd fs p = Except.ok (⟨osAbspath cwd p⟩, fs2)
        ∧ isAbs (osAbspath cwd p) = true
        ∧ fs2.dirs.contains (osAbspath cwd p) = true
        ∧ DatasetLoader.init cwd fs2 p = Except.ok (⟨osAbspath cwd p⟩, fs2) := by
  have hnofile : (pathChain (osAbspath cwd p)).any (fun q => fs.files.contains q)
      = false := by
    rw [List.any_eq_false]
    intro q hq
    rw [hfile q hq]
    exact Bool.false_ne_true
  refine ⟨⟨fs.files,
    (pathChain (osAbspath cwd p)).foldl
      (fun ds2 q2 => if ds2.contains q2 then ds2 else ds2 ++ [q2]) fs.dirs⟩, ?_, ?_, ?_, ?_⟩
  · unfold DatasetLoader.init FS.makedirs
    simp only [hnofile, Bool.false_eq_true, if_false]
  · exact osAbspath_isAbs cwd p habs
  · exact contains_foldl_insert_of_mem _ _ _ hmem
  · unfold DatasetLoader.init FS.makedirs
    simp only [hnofile, Bool.false_eq_true, if_false]
    rw [foldl_insert_eq_of_all]
    intro q hq
    exact contains_foldl_insert_of_mem _ _ _ hq

/-- Witness for C5: initialization with a fresh absolute path on an empty
filesystem creates the directory, and constructing again succeeds
unchanged. -/
theorem c5_witness :
    (isAbs "/home" = true ∧
      (∀ q ∈ pathChain (osAbspath "/home" "/data/cache"),
        (FS.mk [] []).files.contains q = false) ∧
      osAbspath "/home" "/data/cache" ∈ pathChain (osAbspath "/home" "/data/cache")) ∧
      (∃ fs2 : FS,
        DatasetLoader.init "/home" ⟨[], []⟩ "/data/cache"
            = Except.ok (⟨osAbspath "/home" "/data/cache"⟩, fs2)
          ∧ isAbs (osAbspath "/home" "/data/cache") = true
          ∧ fs2.dirs.contains (osAbspath "/home" "/data/cache") = true
          ∧ DatasetLoader.init "/home" fs2 "/data/cache"
            = Except.ok (⟨osAbspath "/home" "/data/cache"⟩, fs2)) :=
  ⟨⟨by decide, by decide, by decide⟩,
    c5_init_creates_cache_dir "/home" "/data/cache" ⟨[], []⟩
      (by decide) (by decide) (by decide)⟩
